import Mathlib

/-!
Shallow embedding of the MyBabbittQuote pricing core:
`src/core/pricing.py` (calculate_product_price, calculate_option_price),
the ORM models it reads (`src/core/models/material.py`,
`src/core/models/product.py`) and the quote rollup properties
(`src/core/models/quote.py`).  Floats are modelled as rationals; the
database session is modelled as lists of rows, with `first()` becoming
`List.find?`.  Nullable columns are `Option` types; Python truthiness of
optional values is made explicit.
-/

namespace MyBabbittQuote

/-- Python truthiness of an optional string: `None` and `""` are falsy. -/
def strTruthy : Option String → Bool
  | none => false
  | some s => decide (s ≠ "")

/-- Python truthiness of an optional float: `None` and `0.0` are falsy. -/
def qTruthy : Option ℚ → Bool
  | none => false
  | some q => decide (q ≠ 0)

/-- Row of the materials table (`src/core/models/material.py`, class Material).
Nullable columns are Options; `base_length` is declared `nullable=False`. -/
structure Material where
  code : String
  base_length : ℚ
  length_adder_per_inch : Option ℚ
  length_adder_per_foot : Option ℚ
  has_nonstandard_length_surcharge : Bool
  nonstandard_length_surcharge : ℚ
  base_price_adder : ℚ
  deriving DecidableEq

/-- Row of the product_variants table (`src/core/models/product.py`, class
ProductVariant; `pricing.py` imports it under the alias-name Product and
queries it by id).  `base_length`, `voltage` and `material` are nullable. -/
structure Product where
  id : Nat
  model_number : String
  base_price : ℚ
  base_length : Option ℚ
  voltage : Option String
  material : Option String
  deriving DecidableEq

/-- Row of the standard_lengths table (`material.py`, class StandardLength);
both columns are `nullable=False`. -/
structure StandardLength where
  material_code : String
  length : ℚ
  deriving DecidableEq

/-- Row of the material_availability table (`material.py`,
class MaterialAvailability). -/
structure MaterialAvailability where
  material_code : String
  product_type : String
  is_available : Bool
  deriving DecidableEq

/-- The read-only reference-data store: the tables `calculate_product_price`
queries through its `db: Session` argument. -/
structure DB where
  products : List Product
  materials : List Material
  standard_lengths : List StandardLength
  availabilities : List MaterialAvailability

/-- Distinguishable failure modes of `calculate_product_price`: the three
`raise ValueError` sites of the Python function, plus the TypeError that
Python raises when `length > product.base_length` compares a float with
`None`. -/
inductive PriceError where
  | productNotFound
  | materialNotFound
  | materialNotAvailable
  | typeError
  deriving DecidableEq

/-- Characters of the longest prefix of a string not containing `sep`:
this is exactly Python `s.split(sep)[0]`. -/
def takeUntilChar : List Char → Char → List Char
  | [], _ => []
  | c :: cs, sep => if c = sep then [] else c :: takeUntilChar cs sep

/-- Characters following the first occurrence of `sep` (empty when `sep`
does not occur); `takeUntilChar (dropThroughChar cs sep) sep` is Python
`s.split(sep)[1]` whenever `sep` occurs. -/
def dropThroughChar : List Char → Char → List Char
  | [], _ => []
  | c :: cs, sep => if c = sep then cs else dropThroughChar cs sep

/-- `pricing.py` lines 52-57: `product_type = product.model_number.split('-')[0]`,
then, when the result contains a slash (dual point switches),
`product_type = product_type.split("/")[0] + "/" + product_type.split("/")[1]`. -/
def product_type_of (model_number : String) : String :=
  let product_type := takeUntilChar model_number.toList '-'
  if product_type.contains '/' then
    String.mk (takeUntilChar product_type '/') ++ "/" ++
      String.mk (takeUntilChar (dropThroughChar product_type '/') '/')
  else
    String.mk product_type

/-- `pricing.py` lines 39-40: `if length is None: length = product.base_length`. -/
def resolve_length (length : Option ℚ) (product : Product) : Option ℚ :=
  match length with
  | none => product.base_length
  | some l => some l

/-- `pricing.py` line 43:
`material_code = material_override if material_override else product.material`. -/
def resolved_material_code (product : Product) (material_override : Option String) :
    Option String :=
  if strTruthy material_override then material_override else product.material

/-- `pricing.py` lines 69-93: start from `product.base_price`; when a truthy
override differs from the default material and is U or T, re-base on the
first Product row with the same model_number, same voltage and material "S",
adding the hardcoded 20.0 (U) or 60.0 (T); the H branch is `pass`, and any
other override leaves the base price untouched. -/
def material_adjusted_base (db : DB) (product : Product)
    (material_override : Option String) : ℚ :=
  if strTruthy material_override && (material_override != product.material) then
    if material_override == some "U" || material_override == some "T" then
      match db.products.find? (fun p =>
          p.model_number == product.model_number &&
          p.voltage == product.voltage &&
          p.material == some "S") with
      | some s_material_product =>
          s_material_product.base_price +
            (if material_override == some "U" then 20.0 else 60.0)
      | none => product.base_price
    else
      product.base_price
  else
    product.base_price

/-- `pricing.py` lines 95-111: `if length and length > product.base_length`,
with the hardcoded per-inch adders 3.75 (S), 9.17 (H, TS), 40.0 (U), 50.0 (T)
applied to `extra_length = length - product.base_length`; any other material
code gets no length charge.  When `length` is truthy but `product.base_length`
is `None`, the Python comparison raises a TypeError. -/
def length_adjustment (material_code : Option String) (length : Option ℚ)
    (variant_base_length : Option ℚ) : Except PriceError ℚ :=
  if qTruthy length then
    match length, variant_base_length with
    | some l, some bl =>
        if bl < l then
          let extra_length := l - bl
          Except.ok
            (if material_code == some "S" then extra_length * 3.75
             else if material_code == some "H" || material_code == some "TS" then
               extra_length * 9.17
             else if material_code == some "U" then extra_length * 40.0
             else if material_code == some "T" then extra_length * 50.0
             else 0)
        else Except.ok 0
    | some _, none => Except.error PriceError.typeError
    | none, _ => Except.ok 0
  else Except.ok 0

/-- `pricing.py` lines 113-122: when the material has the non-standard length
surcharge flag, query StandardLength rows for the material code and the exact
resolved length (a `None` length matches no row, the column being
`nullable=False`); add the surcharge exactly when no row matches. -/
def nonstandard_surcharge (db : DB) (material : Material)
    (material_code : Option String) (length : Option ℚ) : ℚ :=
  if material.has_nonstandard_length_surcharge then
    if (db.standard_lengths.find? (fun s =>
        some s.material_code == material_code && some s.length == length)).isSome
    then 0
    else material.nonstandard_length_surcharge
  else 0

/-- `calculate_product_price` of `src/core/pricing.py`, assembled from the
pieces above in the order of the Python source: product lookup, length
defaulting, material-code resolution, material lookup, availability check
(only when the override is truthy), base price with material adjustment,
length adjustment (the one step that can raise a TypeError), and the
non-standard length surcharge. -/
def calculate_product_price (db : DB) (product_id : Nat)
    (length : Option ℚ) (material_override : Option String) :
    Except PriceError ℚ :=
  match db.products.find? (fun p => p.id == product_id) with
  | none => Except.error PriceError.productNotFound
  | some product =>
    let length := resolve_length length product
    let material_code := resolved_material_code product material_override
    match db.materials.find? (fun m => some m.code == material_code) with
    | none => Except.error PriceError.materialNotFound
    | some material =>
      if strTruthy material_override &&
          (db.availabilities.find? (fun a =>
            some a.material_code == material_code &&
            a.product_type == product_type_of product.model_number &&
            a.is_available)).isNone then
        Except.error PriceError.materialNotAvailable
      else
        match length_adjustment material_code length product.base_length with
        | Except.error e => Except.error e
        | Except.ok length_add =>
            Except.ok (material_adjusted_base db product material_override
              + length_add
              + nonstandard_surcharge db material material_code length)

/-- `calculate_option_price` of `src/core/pricing.py` lines 127-151: the
elif chain on the price type, with the final fallback returning the base
price unchanged. -/
def calculate_option_price (option_price : ℚ) (option_price_type : String)
    (length : Option ℚ) : ℚ :=
  if option_price_type = "fixed" then
    option_price
  else if option_price_type = "per_inch" ∧ length.isSome then
    option_price * length.getD 0
  else if option_price_type = "per_foot" ∧ length.isSome then
    option_price * (length.getD 0 / 12)
  else
    option_price

/-- Row of quote_item_options (`src/core/models/option.py`,
class QuoteItemOption): quantity is an Integer column, price a Float. -/
structure QuoteItemOption where
  quantity : ℤ
  price : ℚ

/-- Row of quote_items (`src/core/models/quote.py`, class QuoteItem) with its
attached options, carrying the fields its total properties read. -/
structure QuoteItem where
  quantity : ℤ
  unit_price : ℚ
  discount_percent : ℚ
  options : List QuoteItemOption

/-- `QuoteItem.options_total`: `sum(option.price * option.quantity for option
in self.options)`. -/
def QuoteItem.options_total (item : QuoteItem) : ℚ :=
  (item.options.map (fun o => o.price * (o.quantity : ℚ))).sum

/-- `QuoteItem.subtotal`: `(self.unit_price * self.quantity) + self.options_total`. -/
def QuoteItem.subtotal (item : QuoteItem) : ℚ :=
  item.unit_price * (item.quantity : ℚ) + item.options_total

/-- `QuoteItem.discount_amount`: `self.subtotal * (self.discount_percent / 100)`. -/
def QuoteItem.discount_amount (item : QuoteItem) : ℚ :=
  item.subtotal * (item.discount_percent / 100)

/-- `QuoteItem.total`: `self.subtotal - self.discount_amount`. -/
def QuoteItem.total (item : QuoteItem) : ℚ :=
  item.subtotal - item.discount_amount

/-- Quote header (`quote.py`, class Quote) with its item list. -/
structure Quote where
  items : List QuoteItem

/-- `Quote.total`: `sum(item.total for item in self.items)`. -/
def Quote.total (q : Quote) : ℚ :=
  (q.items.map QuoteItem.total).sum


/-! ### Concrete reference-data instances used by counterexamples and witnesses -/

/-- A 316SS material row whose own base_length (100) is far above the variant
base_length, with the per-inch adder column set. -/
def exMatS : Material :=
  { code := "S", base_length := 100, length_adder_per_inch := some 3.75,
    length_adder_per_foot := none, has_nonstandard_length_surcharge := false,
    nonstandard_length_surcharge := 0, base_price_adder := 0 }

/-- A Halar material row with a nonzero base_price_adder column. -/
def exMatH : Material :=
  { code := "H", base_length := 10, length_adder_per_inch := some 9.17,
    length_adder_per_foot := none, has_nonstandard_length_surcharge := false,
    nonstandard_length_surcharge := 0, base_price_adder := 50 }

/-- A material row with the non-standard length surcharge flag set. -/
def exMatF : Material :=
  { code := "F", base_length := 10, length_adder_per_inch := none,
    length_adder_per_foot := none, has_nonstandard_length_surcharge := true,
    nonstandard_length_surcharge := 250, base_price_adder := 0 }

/-- A variant with default material S and base_length 10. -/
def exProd1 : Product :=
  { id := 1, model_number := "LS2000-115VAC-S-10", base_price := 500,
    base_length := some 10, voltage := some "115VAC", material := some "S" }

/-- A variant with default material S, used with an H override. -/
def exProd2 : Product :=
  { id := 1, model_number := "LS2000-115VAC-S-10", base_price := 400,
    base_length := some 10, voltage := some "115VAC", material := some "S" }

/-- A variant whose nullable base_length column is NULL. -/
def exProdNull : Product :=
  { id := 1, model_number := "LS2000-115VAC-S-10", base_price := 100,
    base_length := none, voltage := some "115VAC", material := some "S" }

/-- A variant with NULL base_length whose default material carries the
non-standard length surcharge flag. -/
def exProdF : Product :=
  { id := 1, model_number := "LS2000-115VAC-F-10", base_price := 200,
    base_length := none, voltage := some "115VAC", material := some "F" }

def exDB1 : DB :=
  { products := [exProd1], materials := [exMatS], standard_lengths := [],
    availabilities := [] }

def exDB2 : DB :=
  { products := [exProd2], materials := [exMatS, exMatH],
    standard_lengths := [],
    availabilities :=
      [{ material_code := "H", product_type := "LS2000", is_available := true }] }

def exDBNull : DB :=
  { products := [exProdNull], materials := [exMatS], standard_lengths := [],
    availabilities := [] }

def exDBF : DB :=
  { products := [exProdF], materials := [exMatF],
    standard_lengths := [{ material_code := "F", length := 10 }],
    availabilities := [] }

def exDBempty : DB :=
  { products := [], materials := [], standard_lengths := [], availabilities := [] }

/-- A variant with base_length 10 whose default material F carries the
non-standard length surcharge flag. -/
def exProd6 : Product :=
  { id := 1, model_number := "LS2000-115VAC-F-10", base_price := 200,
    base_length := some 10, voltage := some "115VAC", material := some "F" }

def exDB6 : DB :=
  { products := [exProd6], materials := [exMatF],
    standard_lengths := [{ material_code := "F", length := 10 }],
    availabilities := [] }

/-! ### Shared lemmas about the embedded pricing function -/

/-- When the pre-price steps succeed, the price splits into the three
additive parts of the Python function: adjusted base price, length
adjustment, and non-standard length surcharge. -/
theorem calc_price_decomp (db : DB) (product_id : Nat) (length : Option ℚ)
    (material_override : Option String) (product : Product) (material : Material)
    (length_add : ℚ)
    (hp : db.products.find? (fun p => p.id == product_id) = some product)
    (hm : db.materials.find? (fun m =>
      some m.code == resolved_material_code product material_override) = some material)
    (hav : (strTruthy material_override &&
      (db.availabilities.find? (fun a =>
        some a.material_code == resolved_material_code product material_override &&
        a.product_type == product_type_of product.model_number &&
        a.is_available)).isNone) = false)
    (hl : length_adjustment (resolved_material_code product material_override)
      (resolve_length length product) product.base_length = Except.ok length_add) :
    calculate_product_price db product_id length material_override =
      Except.ok (material_adjusted_base db product material_override
        + length_add
        + nonstandard_surcharge db material
            (resolved_material_code product material_override)
            (resolve_length length product)) := by
  unfold calculate_product_price
  rw [hp]
  simp only [hm, hav, hl, Bool.false_eq_true, if_false]

/-- With a non-NULL variant base_length the length-adjustment step always
succeeds. -/
theorem length_adjustment_base_some (material_code : Option String)
    (length : Option ℚ) (bl : ℚ) :
    ∃ q, length_adjustment material_code length (some bl) = Except.ok q := by
  rcases length with _ | l
  · exact ⟨0, rfl⟩
  · by_cases h0 : l = 0
    · exact ⟨0, by simp [length_adjustment, qTruthy, h0]⟩
    · by_cases hlt : bl < l <;> simp [length_adjustment, qTruthy, h0, hlt]

/-- The length-adjustment step either yields a charge or the TypeError of a
float-to-None comparison; no other error can come out of it. -/
theorem length_adjustment_cases (material_code : Option String)
    (length variant_base_length : Option ℚ) :
    (∃ q, length_adjustment material_code length variant_base_length = Except.ok q) ∨
    length_adjustment material_code length variant_base_length =
      Except.error PriceError.typeError := by
  rcases variant_base_length with _ | bl
  · rcases length with _ | l
    · exact Or.inl ⟨0, rfl⟩
    · unfold length_adjustment
      by_cases h0 : l = 0
      · exact Or.inl (by simp [qTruthy, h0])
      · exact Or.inr (by rw [if_pos (by simp [qTruthy, h0])])
  · exact Or.inl (length_adjustment_base_some material_code length bl)

/-- A NULL resolved length yields no length charge. -/
theorem length_adjustment_none_none (material_code : Option String) :
    length_adjustment material_code none none = Except.ok 0 := rfl

/-- The surcharge part in closed form: paid exactly when the flag is set and
no StandardLength row matches. -/
theorem nonstandard_surcharge_eq (db : DB) (material : Material)
    (material_code : Option String) (length : Option ℚ) :
    nonstandard_surcharge db material material_code length =
      if material.has_nonstandard_length_surcharge ∧
          (db.standard_lengths.find? (fun s =>
            some s.material_code == material_code &&
            some s.length == length)).isSome = false
      then material.nonstandard_length_surcharge else 0 := by
  unfold nonstandard_surcharge
  split_ifs <;> simp_all

/-- A NULL resolved length matches no StandardLength row, so a flagged
material always pays the surcharge there. -/
theorem nonstandard_surcharge_none_length (db : DB) (material : Material)
    (material_code : Option String) :
    nonstandard_surcharge db material material_code none =
      if material.has_nonstandard_length_surcharge
      then material.nonstandard_length_surcharge else 0 := by
  unfold nonstandard_surcharge
  have hfind : (db.standard_lengths.find? (fun s =>
      some s.material_code == material_code &&
      some s.length == (none : Option ℚ))) = none := by
    rw [List.find?_eq_none]
    intro a _
    simp
  rw [hfind]
  simp


/-! ### C1 -/

/-- C1 counterexample: in `exDB1` the material row S has base_length 100 and
its per-inch adder column set, the variant has base_length 10, and the
requested length 20 does not exceed the material base_length; the claim
predicts a zero length adjustment (price 500), but the code charges against
the variant base_length: 500 + (20 - 10) * 3.75 = 537.5. -/
theorem C1_counterexample :
    (20 : ℚ) ≤ exMatS.base_length ∧ exMatS.length_adder_per_inch = some 3.75 ∧
    calculate_product_price exDB1 1 (some 20) none = Except.ok 537.5 ∧
    (537.5 : ℚ) ≠ exProd1.base_price := by
  refine ⟨by norm_num [exMatS], by norm_num [exMatS], ?_, by norm_num [exProd1]⟩
  simp [calculate_product_price, exDB1, exProd1, exMatS, resolve_length,
    resolved_material_code, material_adjusted_base, length_adjustment,
    nonstandard_surcharge, strTruthy, qTruthy]
  norm_num

/-- C1 (amended): the length adjustment of `calculate_product_price` computes
extra_length against the VARIANT base_length, with hardcoded per-inch rates by
material code (S 3.75, H and TS 9.17, U 40.0, T 50.0, anything else 0); it
contributes exactly 0 whenever the resolved length is at most the variant
base_length, is NULL, or is zero (falsy). -/
theorem C1_length_threshold :
    (∀ (material_code : Option String) (l bl : ℚ), l ≤ bl →
      length_adjustment material_code (some l) (some bl) = Except.ok 0)
  ∧ (∀ (material_code : Option String) (bl : Option ℚ),
      length_adjustment material_code none bl = Except.ok 0)
  ∧ (∀ (material_code : Option String) (bl : Option ℚ),
      length_adjustment material_code (some 0) bl = Except.ok 0)
  ∧ (∀ l bl : ℚ, l ≠ 0 → bl < l →
      length_adjustment (some "S") (some l) (some bl) = Except.ok ((l - bl) * 3.75))
  ∧ (∀ l bl : ℚ, l ≠ 0 → bl < l →
      length_adjustment (some "H") (some l) (some bl) = Except.ok ((l - bl) * 9.17))
  ∧ (∀ l bl : ℚ, l ≠ 0 → bl < l →
      length_adjustment (some "TS") (some l) (some bl) = Except.ok ((l - bl) * 9.17))
  ∧ (∀ l bl : ℚ, l ≠ 0 → bl < l →
      length_adjustment (some "U") (some l) (some bl) = Except.ok ((l - bl) * 40.0))
  ∧ (∀ l bl : ℚ, l ≠ 0 → bl < l →
      length_adjustment (some "T") (some l) (some bl) = Except.ok ((l - bl) * 50.0))
  ∧ (∀ (mc : String) (l bl : ℚ), mc ≠ "S" → mc ≠ "H" → mc ≠ "TS" → mc ≠ "U" →
      mc ≠ "T" →
      length_adjustment (some mc) (some l) (some bl) = Except.ok 0) := by
  refine ⟨?_, fun mc bl => rfl, ?_, ?_, ?_, ?_, ?_, ?_, ?_⟩
  · intro mc l bl h
    by_cases h0 : l = 0
    · simp [length_adjustment, qTruthy, h0]
    · simp [length_adjustment, qTruthy, h0, not_lt.mpr h]
  · intro mc bl
    simp [length_adjustment, qTruthy]
  · intro l bl h0 hlt
    simp [length_adjustment, qTruthy, h0, hlt]
  · intro l bl h0 hlt
    simp [length_adjustment, qTruthy, h0, hlt]
  · intro l bl h0 hlt
    simp [length_adjustment, qTruthy, h0, hlt]
  · intro l bl h0 hlt
    simp [length_adjustment, qTruthy, h0, hlt]
  · intro l bl h0 hlt
    simp [length_adjustment, qTruthy, h0, hlt]
  · intro mc l bl h1 h2 h3 h4 h5
    by_cases h0 : l = 0
    · simp [length_adjustment, qTruthy, h0]
    · by_cases hlt : bl < l <;>
        simp [length_adjustment, qTruthy, h0, hlt, h1, h2, h3, h4, h5]

/-- C1 witness: the threshold part at length 20 against variant base_length
100, and the S rate at length 30 against variant base_length 10. -/
theorem C1_length_threshold_witness :
    length_adjustment (some "S") (some 20) (some 100) = Except.ok 0 ∧
    length_adjustment (some "S") (some 30) (some 10) = Except.ok ((30 - 10) * 3.75) :=
  ⟨C1_length_threshold.1 (some "S") 20 100 (by norm_num),
   C1_length_threshold.2.2.2.1 30 10 (by norm_num) (by norm_num)⟩


/-! ### C2 -/

/-- C2 counterexample: in `exDB2` the variant (default material S, base price
400) is overridden with H; a row with the same model_number, voltage and
material S exists (the variant itself) and material H has base_price_adder 50,
so the claim predicts 400 + 50 = 450; the code leaves the base price at 400
because its re-basing branch only fires for U and T. -/
theorem C2_counterexample :
    some "H" ≠ exProd2.material ∧
    exMatH.base_price_adder = 50 ∧
    exDB2.products.find? (fun p => p.model_number == exProd2.model_number &&
      p.voltage == exProd2.voltage && p.material == some "S") = some exProd2 ∧
    calculate_product_price exDB2 1 none (some "H") = Except.ok 400 ∧
    (400 : ℚ) ≠ exProd2.base_price + exMatH.base_price_adder := by
  refine ⟨by simp [exProd2], by norm_num [exMatH], ?_, ?_, by norm_num [exProd2, exMatH]⟩
  · simp [exDB2, exProd2]
  · simp [calculate_product_price, exDB2, exProd2, exMatS, exMatH,
      resolve_length, resolved_material_code, material_adjusted_base,
      length_adjustment, nonstandard_surcharge, strTruthy, qTruthy,
      product_type_of, takeUntilChar, dropThroughChar]

/-- C2 (amended): re-basing happens only for a U or T override: the first row
with the same model_number, voltage and material S supplies the base plus a
hardcoded 20.0 (U) or 60.0 (T); without such a row, and for every non-U/T
override (H included), the variant base_price is kept; the Material
base_price_adder column is never consulted. -/
theorem C2_rebase :
    (∀ (db : DB) (product s : Product) (mo : String),
      (mo = "U" ∨ mo = "T") → strTruthy (some mo) = true →
      some mo ≠ product.material →
      db.products.find? (fun p => p.model_number == product.model_number &&
        p.voltage == product.voltage && p.material == some "S") = some s →
      material_adjusted_base db product (some mo) =
        s.base_price + (if mo = "U" then 20.0 else 60.0))
  ∧ (∀ (db : DB) (product : Product) (mo : Option String),
      db.products.find? (fun p => p.model_number == product.model_number &&
        p.voltage == product.voltage && p.material == some "S") = none →
      material_adjusted_base db product mo = product.base_price)
  ∧ (∀ (db : DB) (product : Product) (mo : Option String),
      mo ≠ some "U" → mo ≠ some "T" →
      material_adjusted_base db product mo = product.base_price) := by
  refine ⟨?_, ?_, ?_⟩
  · intro db product s mo hUT hmo hne hfind
    unfold material_adjusted_base
    rw [if_pos (by simp [hmo, bne_iff_ne, hne])]
    rcases hUT with h | h <;> subst h <;> simp [hfind]
  · intro db product mo hfind
    unfold material_adjusted_base
    rw [hfind]
    split_ifs <;> simp
  · intro db product mo hU hT
    unfold material_adjusted_base
    have h : (mo == some "U" || mo == some "T") = false := by simp [hU, hT]
    rw [h]
    simp

/-- C2 witness: the non-U/T branch keeps the base price in `exDB2`, and a U
override on the same data re-bases onto the S row (the variant itself) plus
20. -/
theorem C2_rebase_witness :
    material_adjusted_base exDB2 exProd2 (some "H") = exProd2.base_price ∧
    material_adjusted_base exDB2 exProd2 (some "U") =
      exProd2.base_price + (if "U" = "U" then 20.0 else 60.0) :=
  ⟨C2_rebase.2.2 exDB2 exProd2 (some "H") (by simp) (by simp),
   C2_rebase.1 exDB2 exProd2 exProd2 "U" (Or.inl rfl) (by simp [strTruthy])
     (by simp [exProd2]) (by simp [exDB2, exProd2])⟩

/-! ### C3 -/

/-- C3 counterexample: in `exDB1` there are no MaterialAvailability rows; an
override equal to the variant default material ("S") still triggers the
availability check and fails with MaterialNotAvailable, while the same call
without the override succeeds; the claim predicts the check is skipped when
the override equals the default. -/
theorem C3_counterexample :
    some "S" = exProd1.material ∧
    calculate_product_price exDB1 1 none (some "S") =
      Except.error PriceError.materialNotAvailable ∧
    calculate_product_price exDB1 1 none none = Except.ok 500 := by
  refine ⟨by simp [exProd1], ?_, ?_⟩
  · simp [calculate_product_price, exDB1, exProd1, exMatS,
      resolved_material_code, strTruthy]
  · simp [calculate_product_price, exDB1, exProd1, exMatS, resolve_length,
      resolved_material_code, material_adjusted_base, length_adjustment,
      nonstandard_surcharge, strTruthy, qTruthy]


/-- C3 (amended): the availability check runs whenever a truthy override is
supplied, whether or not it differs from the variant default: if the product
and the override material resolve but no MaterialAvailability row for the
override code and the derived product type is available, the call fails with
MaterialNotAvailable; with such a row, or with no override, the call never
fails that way; the product type token keeps the "/N" sub-type suffix. -/
theorem C3_availability :
    (∀ (db : DB) (product_id : Nat) (length : Option ℚ) (mo : Option String)
       (product : Product) (material : Material),
      db.products.find? (fun p => p.id == product_id) = some product →
      strTruthy mo = true →
      db.materials.find? (fun m => some m.code == mo) = some material →
      db.availabilities.find? (fun a => some a.material_code == mo &&
        a.product_type == product_type_of product.model_number &&
        a.is_available) = none →
      calculate_product_price db product_id length mo =
        Except.error PriceError.materialNotAvailable)
  ∧ (∀ (db : DB) (product_id : Nat) (length : Option ℚ) (mo : Option String)
       (product : Product),
      db.products.find? (fun p => p.id == product_id) = some product →
      (db.availabilities.find? (fun a => some a.material_code ==
        resolved_material_code product mo &&
        a.product_type == product_type_of product.model_number &&
        a.is_available)).isSome = true →
      calculate_product_price db product_id length mo ≠
        Except.error PriceError.materialNotAvailable)
  ∧ (∀ (db : DB) (product_id : Nat) (length : Option ℚ) (mo : Option String),
      strTruthy mo = false →
      calculate_product_price db product_id length mo ≠
        Except.error PriceError.materialNotAvailable)
  ∧ product_type_of "LS7000/2-115VAC-H-10" = "LS7000/2"
  ∧ product_type_of "LS2000-115VAC-S-10" = "LS2000" := by
  refine ⟨?_, ?_, ?_, by rfl, by rfl⟩
  · intro db product_id length mo product material hp hmo hm hav
    have hcode : resolved_material_code product mo = mo := by
      simp [resolved_material_code, hmo]
    unfold calculate_product_price
    rw [hp]
    simp only [hcode, hm, hav]
    simp [hmo]
  · intro db product_id length mo product hp hav
    unfold calculate_product_price
    rw [hp]
    rcases hfm : db.materials.find? (fun m =>
        some m.code == resolved_material_code product mo) with _ | material
    · simp only [hfm]
      simp
    · have hnone : (db.availabilities.find? (fun a =>
          some a.material_code == resolved_material_code product mo &&
          a.product_type == product_type_of product.model_number &&
          a.is_available)).isNone = false := by
        rcases hx : db.availabilities.find? (fun a =>
            some a.material_code == resolved_material_code product mo &&
            a.product_type == product_type_of product.model_number &&
            a.is_available) with _ | a
        · rw [hx] at hav
          simp at hav
        · rw [hx]
          rfl
      have hcond : (strTruthy mo && (db.availabilities.find? (fun a =>
          some a.material_code == resolved_material_code product mo &&
          a.product_type == product_type_of product.model_number &&
          a.is_available)).isNone) = false := by
        rw [hnone, Bool.and_false]
      simp only [hfm, hcond, Bool.false_eq_true, if_false]
      rcases length_adjustment_cases (resolved_material_code product mo)
          (resolve_length length product) product.base_length with ⟨q, hq⟩ | hq <;>
        simp only [hq] <;> simp
  · intro db product_id length mo hmo
    unfold calculate_product_price
    rcases hp : db.products.find? (fun p => p.id == product_id) with _ | product
    · simp only [hp]
      simp
    · rcases hfm : db.materials.find? (fun m =>
          some m.code == resolved_material_code product mo) with _ | material
      · simp only [hp, hfm]
        simp
      · have hcond : (strTruthy mo && (db.availabilities.find? (fun a =>
            some a.material_code == resolved_material_code product mo &&
            a.product_type == product_type_of product.model_number &&
            a.is_available)).isNone) = false := by
          rw [hmo, Bool.false_and]
        simp only [hp, hfm, hcond, Bool.false_eq_true, if_false]
        rcases length_adjustment_cases (resolved_material_code product mo)
            (resolve_length length product) product.base_length with ⟨q, hq⟩ | hq <;>
          simp only [hq] <;> simp


/-- C3 witness: with no MaterialAvailability rows, an S override on the S
variant of `exDB1` fails with MaterialNotAvailable. -/
theorem C3_availability_witness :
    calculate_product_price exDB1 1 none (some "S") =
      Except.error PriceError.materialNotAvailable :=
  C3_availability.1 exDB1 1 none (some "S") exProd1 exMatS rfl rfl rfl rfl

/-! ### C4 -/

/-- C4: the quote rollup identities of `quote.py`: options_total is the sum
of option price times option quantity (0 on an empty options list), subtotal
is unit price times quantity plus options_total, the line total subtracts the
discount subtotal * (discount_percent / 100), and a quote total is the sum of
its line totals (0 on an empty item list). -/
theorem C4_quote_rollup :
    (∀ item : QuoteItem, item.options = [] → item.options_total = 0)
  ∧ (∀ item : QuoteItem, item.options_total =
      (item.options.map (fun o => o.price * (o.quantity : ℚ))).sum)
  ∧ (∀ item : QuoteItem, item.subtotal =
      item.unit_price * (item.quantity : ℚ) + item.options_total)
  ∧ (∀ item : QuoteItem, item.discount_amount =
      item.subtotal * (item.discount_percent / 100))
  ∧ (∀ item : QuoteItem, item.total = item.subtotal - item.discount_amount)
  ∧ (∀ q : Quote, q.items = [] → q.total = 0)
  ∧ (∀ q : Quote, q.total = (q.items.map QuoteItem.total).sum) := by
  refine ⟨?_, fun item => rfl, fun item => rfl, fun item => rfl, fun item => rfl,
    ?_, fun q => rfl⟩
  · intro item h
    simp [QuoteItem.options_total, h]
  · intro q h
    simp [Quote.total, h]

/-- C4 witness: a line item with no options has options_total 0, and the
empty quote totals 0. -/
theorem C4_quote_rollup_witness :
    QuoteItem.options_total ⟨2, 10, 5, []⟩ = 0 ∧
    Quote.total ⟨[]⟩ = 0 :=
  ⟨C4_quote_rollup.1 ⟨2, 10, 5, []⟩ rfl, C4_quote_rollup.2.2.2.2.2.1 ⟨[]⟩ rfl⟩

/-! ### C5 -/

/-- C5: `calculate_option_price` returns the base price for "fixed" (with or
without a length), multiplies by the length for "per_inch", multiplies by
length / 12 for "per_foot", and falls back to the base price for any other
combination: an unrecognized price type, or per_inch / per_foot without a
length. -/
theorem C5_option_price (p l : ℚ) (t : String) :
    calculate_option_price p "fixed" none = p
  ∧ calculate_option_price p "fixed" (some l) = p
  ∧ calculate_option_price p "per_inch" (some l) = p * l
  ∧ calculate_option_price p "per_foot" (some l) = p * (l / 12)
  ∧ (t ≠ "fixed" → calculate_option_price p t none = p)
  ∧ (t ≠ "fixed" → t ≠ "per_inch" → t ≠ "per_foot" →
      calculate_option_price p t (some l) = p) := by
  refine ⟨by simp [calculate_option_price], by simp [calculate_option_price],
    by simp [calculate_option_price], by simp [calculate_option_price], ?_, ?_⟩
  · intro ht
    simp [calculate_option_price, ht]
  · intro h1 h2 h3
    simp [calculate_option_price, h1, h2, h3]

/-- C5 witness: spec examples 40 fixed -> 40, 10 per_inch 20 -> 200,
30 per_foot 24 -> 60, and the fallback on an unrecognized type. -/
theorem C5_option_price_witness :
    calculate_option_price 40 "fixed" none = 40 ∧
    calculate_option_price 10 "per_inch" (some 20) = 10 * 20 ∧
    calculate_option_price 30 "per_foot" (some 24) = 30 * (24 / 12) ∧
    calculate_option_price 40 "per_inch" none = 40 :=
  ⟨(C5_option_price 40 0 "x").1,
   (C5_option_price 10 20 "x").2.2.1,
   (C5_option_price 30 24 "x").2.2.2.1,
   (C5_option_price 40 0 "per_inch").2.2.2.2.1 (by decide)⟩


/-! ### C6 -/

/-- C6: when the lookups succeed and the length step yields a charge, the
price carries the non-standard length surcharge as one additive term, equal
to the surcharge exactly when the material flag is set and no StandardLength
row matches the resolved length, and 0 otherwise: the surcharge is paid at
most once per call and never when the flag is off. -/
theorem C6_surcharge_once (db : DB) (product_id : Nat) (length : Option ℚ)
    (mo : Option String) (product : Product) (material : Material)
    (length_add : ℚ)
    (hp : db.products.find? (fun p => p.id == product_id) = some product)
    (hm : db.materials.find? (fun m =>
      some m.code == resolved_material_code product mo) = some material)
    (hav : (strTruthy mo && (db.availabilities.find? (fun a =>
      some a.material_code == resolved_material_code product mo &&
      a.product_type == product_type_of product.model_number &&
      a.is_available)).isNone) = false)
    (hl : length_adjustment (resolved_material_code product mo)
      (resolve_length length product) product.base_length = Except.ok length_add) :
    calculate_product_price db product_id length mo =
      Except.ok (material_adjusted_base db product mo + length_add +
        (if material.has_nonstandard_length_surcharge ∧
            (db.standard_lengths.find? (fun s =>
              some s.material_code == resolved_material_code product mo &&
              some s.length == resolve_length length product)).isSome = false
         then material.nonstandard_length_surcharge else 0)) := by
  rw [calc_price_decomp db product_id length mo product material length_add
    hp hm hav hl, nonstandard_surcharge_eq]

/-- C6 witness: on `exDB6` (flagged material F, surcharge 250, standard
length 10) a request at the standard length 10 pays no surcharge, while a
request at 14 pays it once. -/
theorem C6_surcharge_once_witness :
    calculate_product_price exDB6 1 (some 10) none =
      Except.ok (material_adjusted_base exDB6 exProd6 none + 0 +
        (if exMatF.has_nonstandard_length_surcharge ∧
            (exDB6.standard_lengths.find? (fun s =>
              some s.material_code == resolved_material_code exProd6 none &&
              some s.length == resolve_length (some 10) exProd6)).isSome = false
         then exMatF.nonstandard_length_surcharge else 0)) ∧
    calculate_product_price exDB6 1 (some 14) none =
      Except.ok (material_adjusted_base exDB6 exProd6 none + 0 +
        (if exMatF.has_nonstandard_length_surcharge ∧
            (exDB6.standard_lengths.find? (fun s =>
              some s.material_code == resolved_material_code exProd6 none &&
              some s.length == resolve_length (some 14) exProd6)).isSome = false
         then exMatF.nonstandard_length_surcharge else 0)) :=
  ⟨C6_surcharge_once exDB6 1 (some 10) none exProd6 exMatF 0 rfl rfl rfl
      (by simp [length_adjustment, qTruthy, resolve_length,
        resolved_material_code, strTruthy, exProd6]),
   C6_surcharge_once exDB6 1 (some 14) none exProd6 exMatF 0 rfl rfl rfl
      (by simp [length_adjustment, qTruthy, resolve_length,
        resolved_material_code, strTruthy, exProd6])⟩


/-! ### C7 -/

/-- C7 counterexample: on `exDBNull` (variant with NULL base_length, catalog
material present) an explicit length makes the call fail with the TypeError
of comparing a float against None, which is neither of the two documented
error kinds; the claim that every call succeeds or fails with NotFound or
MaterialNotAvailable is therefore false. -/
theorem C7_counterexample :
    calculate_product_price exDBNull 1 (some 5) none =
      Except.error PriceError.typeError ∧
    PriceError.typeError ≠ PriceError.productNotFound ∧
    PriceError.typeError ≠ PriceError.materialNotFound ∧
    PriceError.typeError ≠ PriceError.materialNotAvailable := by
  refine ⟨?_, by simp, by simp, by simp⟩
  simp [calculate_product_price, exDBNull, exProdNull, exMatS, resolve_length,
    resolved_material_code, length_adjustment, strTruthy, qTruthy]

/-- C7 (amended): NotFound arises exactly from an absent variant id
(productNotFound) or an absent effective material code (materialNotFound),
and under the precondition that the variant base_length is non-NULL, or the
length argument is omitted, every call either succeeds or fails with one of
the three listed errors, never with the TypeError; conversely a TypeError
happens only for a found variant with NULL base_length and an explicit
truthy length. -/
theorem C7_error_taxonomy :
    (∀ (db : DB) (product_id : Nat) (length : Option ℚ) (mo : Option String),
      db.products.find? (fun p => p.id == product_id) = none →
      calculate_product_price db product_id length mo =
        Except.error PriceError.productNotFound)
  ∧ (∀ (db : DB) (product_id : Nat) (length : Option ℚ) (mo : Option String)
       (product : Product),
      db.products.find? (fun p => p.id == product_id) = some product →
      db.materials.find? (fun m =>
        some m.code == resolved_material_code product mo) = none →
      calculate_product_price db product_id length mo =
        Except.error PriceError.materialNotFound)
  ∧ (∀ (db : DB) (product_id : Nat) (length : Option ℚ) (mo : Option String)
       (product : Product),
      db.products.find? (fun p => p.id == product_id) = some product →
      (db.materials.find? (fun m =>
        some m.code == resolved_material_code product mo)).isSome = true →
      calculate_product_price db product_id length mo ≠
        Except.error PriceError.productNotFound ∧
      calculate_product_price db product_id length mo ≠
        Except.error PriceError.materialNotFound)
  ∧ (∀ (db : DB) (product_id : Nat) (length : Option ℚ) (mo : Option String)
       (product : Product) (bl : ℚ),
      db.products.find? (fun p => p.id == product_id) = some product →
      product.base_length = some bl →
      calculate_product_price db product_id length mo ≠
        Except.error PriceError.typeError)
  ∧ (∀ (db : DB) (product_id : Nat) (mo : Option String),
      calculate_product_price db product_id none mo ≠
        Except.error PriceError.typeError)
  ∧ (∀ (db : DB) (product_id : Nat) (length : Option ℚ) (mo : Option String),
      calculate_product_price db product_id length mo =
        Except.error PriceError.typeError →
      ∃ product, db.products.find? (fun p => p.id == product_id) = some product ∧
        product.base_length = none ∧ ∃ l, length = some l ∧ l ≠ 0) := by
  refine ⟨?_, ?_, ?_, ?_, ?_, ?_⟩
  · intro db product_id length mo hp
    unfold calculate_product_price
    rw [hp]
  · intro db product_id length mo product hp hm
    unfold calculate_product_price
    rw [hp]
    simp only [hm]
  · intro db product_id length mo product hp hmat
    obtain ⟨material, hm⟩ := Option.isSome_iff_exists.mp hmat
    unfold calculate_product_price
    rw [hp]
    rcases hcond : (strTruthy mo && (db.availabilities.find? (fun a =>
        some a.material_code == resolved_material_code product mo &&
        a.product_type == product_type_of product.model_number &&
        a.is_available)).isNone) with _ | _
    · simp only [hm, hcond, Bool.false_eq_true, if_false]
      rcases length_adjustment_cases (resolved_material_code product mo)
          (resolve_length length product) product.base_length with ⟨q, hq⟩ | hq <;>
        simp only [hq] <;> exact ⟨by simp, by simp⟩
    · simp only [hm, hcond, if_pos]
      exact ⟨by simp, by simp⟩
  · intro db product_id length mo product bl hp hbl
    unfold calculate_product_price
    rw [hp]
    rcases hfm : db.materials.find? (fun m =>
        some m.code == resolved_material_code product mo) with _ | material
    · simp only [hfm]
      simp
    · rcases hcond : (strTruthy mo && (db.availabilities.find? (fun a =>
          some a.material_code == resolved_material_code product mo &&
          a.product_type == product_type_of product.model_number &&
          a.is_available)).isNone) with _ | _
      · obtain ⟨q, hq⟩ := length_adjustment_base_some
          (resolved_material_code product mo) (resolve_length length product) bl
        rw [← hbl] at hq
        simp only [hfm, hcond, Bool.false_eq_true, if_false, hq]
        simp
      · simp only [hfm, hcond, if_pos]
        simp
  · intro db product_id mo
    unfold calculate_product_price
    rcases hp : db.products.find? (fun p => p.id == product_id) with _ | product
    · simp only [hp]
      simp
    · rcases hfm : db.materials.find? (fun m =>
          some m.code == resolved_material_code product mo) with _ | material
      · simp only [hp, hfm]
        simp
      · rcases hcond : (strTruthy mo && (db.availabilities.find? (fun a =>
            some a.material_code == resolved_material_code product mo &&
            a.product_type == product_type_of product.model_number &&
            a.is_available)).isNone) with _ | _
        · have hres : resolve_length none product = product.base_length := rfl
          rcases hbl : product.base_length with _ | bl
          · have h0 : length_adjustment (resolved_material_code product mo)
                (resolve_length none product) product.base_length = Except.ok 0 := by
              rw [hres, hbl]
              exact length_adjustment_none_none _
            simp only [hp, hfm, hcond, Bool.false_eq_true, if_false, h0]
            simp
          · obtain ⟨q, hq⟩ := length_adjustment_base_some
              (resolved_material_code product mo) (resolve_length none product) bl
            rw [← hbl] at hq
            simp only [hp, hfm, hcond, Bool.false_eq_true, if_false, hq]
            simp
        · simp only [hp, hfm, hcond, if_pos]
          simp
  · intro db product_id length mo heq
    unfold calculate_product_price at heq
    rcases hp : db.products.find? (fun p => p.id == product_id) with _ | product
    · rw [hp] at heq
      simp at heq
    · rw [hp] at heq
      refine ⟨product, hp, ?_⟩
      rcases hfm : db.materials.find? (fun m =>
          some m.code == resolved_material_code product mo) with _ | material
      · simp only [hfm] at heq
        simp at heq
      · rcases hcond : (strTruthy mo && (db.availabilities.find? (fun a =>
            some a.material_code == resolved_material_code product mo &&
            a.product_type == product_type_of product.model_number &&
            a.is_available)).isNone) with _ | _
        · simp only [hfm, hcond, Bool.false_eq_true, if_false] at heq
          rcases hbl : product.base_length with _ | bl
          · refine ⟨rfl, ?_⟩
            rcases length with _ | l
            · have h0 : length_adjustment (resolved_material_code product mo)
                  (resolve_length none product) product.base_length = Except.ok 0 := by
                rw [show resolve_length none product = product.base_length from rfl, hbl]
                exact length_adjustment_none_none _
              rw [h0] at heq
              simp at heq
            · by_cases h0 : l = 0
              · subst h0
                have hz : length_adjustment (resolved_material_code product mo)
                    (resolve_length (some 0) product) product.base_length =
                    Except.ok 0 := by
                  simp [length_adjustment, resolve_length, qTruthy]
                rw [hz] at heq
                simp at heq
              · exact ⟨l, rfl, h0⟩
          · obtain ⟨q, hq⟩ := length_adjustment_base_some
              (resolved_material_code product mo) (resolve_length length product) bl
            rw [← hbl] at hq
            rw [hq] at heq
            simp at heq
        · simp only [hfm, hcond, if_pos] at heq
          simp at heq

/-- C7 witness: on the empty store every lookup fails and the call reports
productNotFound. -/
theorem C7_error_taxonomy_witness :
    calculate_product_price exDBempty 1 none none =
      Except.error PriceError.productNotFound :=
  C7_error_taxonomy.1 exDBempty 1 none none rfl


/-! ### C8 -/

/-- C8: the hardcoded length-adder amounts, computed against the variant
base_length: 20 extra inches of S cost 20 * 3.75 = 75, 24 extra inches of H
or TS cost 24 * 9.17 = 220.08, 5 extra inches of U cost 5 * 40 = 200, and 2
extra inches of T cost 2 * 50 = 100 (each under the truthiness proviso that
the requested length is nonzero). -/
theorem C8_length_adder_amounts (bl : ℚ) :
    (bl + 20 ≠ 0 →
      length_adjustment (some "S") (some (bl + 20)) (some bl) = Except.ok 75)
  ∧ (bl + 24 ≠ 0 →
      length_adjustment (some "H") (some (bl + 24)) (some bl) = Except.ok 220.08)
  ∧ (bl + 24 ≠ 0 →
      length_adjustment (some "TS") (some (bl + 24)) (some bl) = Except.ok 220.08)
  ∧ (bl + 5 ≠ 0 →
      length_adjustment (some "U") (some (bl + 5)) (some bl) = Except.ok 200)
  ∧ (bl + 2 ≠ 0 →
      length_adjustment (some "T") (some (bl + 2)) (some bl) = Except.ok 100) := by
  refine ⟨?_, ?_, ?_, ?_, ?_⟩
  · intro h
    have hlt : bl < bl + 20 := by linarith
    simp [length_adjustment, qTruthy, h, hlt]
    norm_num
  · intro h
    have hlt : bl < bl + 24 := by linarith
    simp [length_adjustment, qTruthy, h, hlt]
    norm_num
  · intro h
    have hlt : bl < bl + 24 := by linarith
    simp [length_adjustment, qTruthy, h, hlt]
    norm_num
  · intro h
    have hlt : bl < bl + 5 := by linarith
    simp [length_adjustment, qTruthy, h, hlt]
    norm_num
  · intro h
    have hlt : bl < bl + 2 := by linarith
    simp [length_adjustment, qTruthy, h, hlt]
    norm_num

/-- C8 witness: the adder amounts at variant base_length 10. -/
theorem C8_length_adder_amounts_witness :
    length_adjustment (some "S") (some (10 + 20)) (some 10) = Except.ok 75 ∧
    length_adjustment (some "H") (some (10 + 24)) (some 10) = Except.ok 220.08 ∧
    length_adjustment (some "TS") (some (10 + 24)) (some 10) = Except.ok 220.08 ∧
    length_adjustment (some "U") (some (10 + 5)) (some 10) = Except.ok 200 ∧
    length_adjustment (some "T") (some (10 + 2)) (some 10) = Except.ok 100 :=
  ⟨(C8_length_adder_amounts 10).1 (by norm_num),
   (C8_length_adder_amounts 10).2.1 (by norm_num),
   (C8_length_adder_amounts 10).2.2.1 (by norm_num),
   (C8_length_adder_amounts 10).2.2.2.1 (by norm_num),
   (C8_length_adder_amounts 10).2.2.2.2 (by norm_num)⟩

/-! ### C10 -/

/-- C10: with the length argument omitted and a NULL variant base_length the
resolved length stays NULL: the length adjustment contributes exactly 0
whatever the material, and a material with the surcharge flag always pays the
non-standard length surcharge, a NULL length matching no StandardLength row. -/
theorem C10_null_length_behavior (db : DB) (product_id : Nat)
    (mo : Option String) (product : Product) (material : Material)
    (hp : db.products.find? (fun p => p.id == product_id) = some product)
    (hbl : product.base_length = none)
    (hm : db.materials.find? (fun m =>
      some m.code == resolved_material_code product mo) = some material)
    (hav : (strTruthy mo && (db.availabilities.find? (fun a =>
      some a.material_code == resolved_material_code product mo &&
      a.product_type == product_type_of product.model_number &&
      a.is_available)).isNone) = false) :
    calculate_product_price db product_id none mo =
      Except.ok (material_adjusted_base db product mo + 0 +
        (if material.has_nonstandard_length_surcharge
         then material.nonstandard_length_surcharge else 0)) := by
  have hres : resolve_length none product = none := by
    simp [resolve_length, hbl]
  have hl : length_adjustment (resolved_material_code product mo)
      (resolve_length none product) product.base_length = Except.ok 0 := by
    rw [hres, hbl]
    exact length_adjustment_none_none _
  rw [calc_price_decomp db product_id none mo product material 0 hp hm hav hl,
    hres, nonstandard_surcharge_none_length]

/-- C10 witness: on `exDBF` (variant with NULL base_length, flagged default
material F with surcharge 250, a StandardLength row present) the call with no
length charges the surcharge on top of the base price. -/
theorem C10_null_length_behavior_witness :
    calculate_product_price exDBF 1 none none =
      Except.ok (material_adjusted_base exDBF exProdF none + 0 +
        (if exMatF.has_nonstandard_length_surcharge
         then exMatF.nonstandard_length_surcharge else 0)) :=
  C10_null_length_behavior exDBF 1 none exProdF exMatF rfl rfl rfl rfl


/-! ### C9 -/

/-- C9: a variant whose nullable base_length is NULL, together with an
explicit positive length, makes the comparison `length > product.base_length`
ill-typed: the call on `exDBNull` ends in the TypeError, an error that is
neither NotFound kind nor MaterialNotAvailable. -/
theorem C9_null_base_length :
    exProdNull.base_length = none ∧ (0 : ℚ) < 10 ∧
    calculate_product_price exDBNull 1 (some 10) none =
      Except.error PriceError.typeError ∧
    PriceError.typeError ≠ PriceError.productNotFound ∧
    PriceError.typeError ≠ PriceError.materialNotFound ∧
    PriceError.typeError ≠ PriceError.materialNotAvailable := by
  refine ⟨rfl, by norm_num, ?_, by simp, by simp, by simp⟩
  simp [calculate_product_price, exDBNull, exProdNull, exMatS, resolve_length,
    resolved_material_code, length_adjustment, strTruthy, qTruthy]

end MyBabbittQuote
